import Mathlib

/-!
Shallow embedding of the property-management API (Node/Express over PostgreSQL).

JavaScript objects whose keys are column names are modelled as ordered
association lists `List (String × α)`: `Object.keys` is `List.map Prod.fst`
and `Object.values` is `List.map Prod.snd`, in insertion order, matching the
iteration order of string-keyed JS objects.  `Array.prototype.join(sep)` is
`joinSep sep` and `Array.prototype.map((x, i) => ...)` is `mapWithIndex f 0`.
Database interaction (`pool.query`) is modelled by an explicit trace of issued
calls plus oracle parameters supplying what the database answers.
-/

set_option maxRecDepth 8000

namespace PropertyApi

/-- Rows and column→value maps: ordered association lists, as JS objects. -/
abbrev Row (α : Type) := List (String × α)

/-- JS `Array.prototype.join(sep)`. -/
def joinSep (sep : String) : List String → String
  | [] => ""
  | [x] => x
  | x :: y :: ys => x ++ sep ++ joinSep sep (y :: ys)

/-- JS `Array.prototype.map` with the element index as second callback argument. -/
def mapWithIndex (f : Nat → β → γ) : Nat → List β → List γ
  | _, [] => []
  | i, b :: bs => f i b :: mapWithIndex f (i + 1) bs

/-- Result of the query builders: SQL text plus ordered bind values,
as the query/values result object of `utils/propertyDataQueryBuilder.js`. -/
structure QueryResult (α : Type) where
  query : String
  values : List α
deriving DecidableEq, Repr

/-! Query builder (`utils/propertyDataQueryBuilder.js`). -/

/-- WHERE clause fragment `k1 = $1 AND k2 = $2 AND ...` used by
`buildSelectQuery` and `buildDeleteQuery`. -/
def condClause (keys : List String) : String :=
  joinSep " AND " (mapWithIndex (fun i key => key ++ " = $" ++ toString (i + 1)) 0 keys)

/-- SET clause `k1 = $1, k2 = $2, ...` of `buildUpdateQuery`. -/
def setClauseOf (keys : List String) : String :=
  joinSep ", " (mapWithIndex (fun i key => key ++ " = $" ++ toString (i + 1)) 0 keys)

/-- WHERE clause of `buildUpdateQuery`: placeholder numbering continues after
the `dataLen` data placeholders. -/
def updateWhereClause (dataLen : Nat) (keys : List String) : String :=
  joinSep " AND " (mapWithIndex (fun i key => key ++ " = $" ++ toString (dataLen + i + 1)) 0 keys)

/-- Embedding of `buildSelectQuery(table, conditions, columns)`.  The JS
default arguments — empty conditions and a star column list — are passed
explicitly at Lean call sites. -/
def buildSelectQuery (table : String) (conditions : Row α) (columns : List String) :
    QueryResult α :=
  let keys := conditions.map Prod.fst
  let whereClause := if keys.length = 0 then "" else " WHERE " ++ condClause keys
  { query := "SELECT " ++ joinSep ", " columns ++ " FROM " ++ table ++ whereClause
    values := conditions.map Prod.snd }

/-- Embedding of `buildInsertQuery(table, data)`. -/
def buildInsertQuery (table : String) (data : Row α) : QueryResult α :=
  let keys := data.map Prod.fst
  let placeholders := joinSep ", " (mapWithIndex (fun i _ => "$" ++ toString (i + 1)) 0 keys)
  { query := "INSERT INTO " ++ table ++ " (" ++ joinSep ", " keys ++ ") VALUES (" ++
      placeholders ++ ") RETURNING *"
    values := data.map Prod.snd }

/-- Embedding of `buildUpdateQuery(table, data, conditions)`. -/
def buildUpdateQuery (table : String) (data : Row α) (conditions : Row α) : QueryResult α :=
  let dataKeys := data.map Prod.fst
  let conditionKeys := conditions.map Prod.fst
  { query := "UPDATE " ++ table ++ " SET " ++ setClauseOf dataKeys ++ " WHERE " ++
      updateWhereClause dataKeys.length conditionKeys ++ " RETURNING *"
    values := data.map Prod.snd ++ conditions.map Prod.snd }

/-- Embedding of `buildDeleteQuery(table, conditions)`. -/
def buildDeleteQuery (table : String) (conditions : Row α) : QueryResult α :=
  let keys := conditions.map Prod.fst
  { query := "DELETE FROM " ++ table ++ " WHERE " ++ condClause keys
    values := conditions.map Prod.snd }

/-! Column builder (`utils/columnQueryBuilder.js`). -/

/-- Fixed whitelist of allowed column types. -/
def validTypes : List String :=
  ["VARCHAR", "TEXT", "NUMERIC", "INTEGER", "BOOLEAN", "DATE", "TIMESTAMP"]

/-- JS `String.prototype.toUpperCase`, character by character (all strings
involved are ASCII, where this agrees with JS). -/
def jsToUpperCase (s : String) : String :=
  String.mk (s.data.map Char.toUpper)

/-- Embedding of `validateColumnType(columnType)`: case-insensitive membership
test against `validTypes`. -/
def validateColumnType (columnType : String) : Bool :=
  validTypes.contains (jsToUpperCase columnType)

/-- Embedding of `buildAddColumnQuery(columnName, columnType)`; the JS `throw`
becomes `Except.error`. -/
def buildAddColumnQuery (columnName columnType : String) : Except String String :=
  if validateColumnType columnType then
    Except.ok ("ALTER TABLE property_data ADD COLUMN " ++ columnName ++ " " ++
      jsToUpperCase columnType ++ ";")
  else
    Except.error "Invalid column type"

/-! Repository model (`models/propertyModel.js`).  Each operation returns its
outcome together with the ordered trace of `pool.query` calls it issues.  The
answers of the database are supplied by parameters: `tableColumns` is the answer to
the catalog column-name query, and `exec` gives the rows returned for a
parameterized statement. -/

/-- One `pool.query(text, values)` call; a call with no bind values is
recorded with an empty `values` list. -/
structure DbCall (α : Type) where
  text : String
  values : List α
deriving DecidableEq, Repr

/-- Text of the catalog query of `getTableColumnsNames` (and of
`getTableColumns` in `config/checkSchema.js`), with the exact whitespace of
the template literal. -/
def catalogColumnsText : String :=
  "\n    SELECT column_name \n    FROM information_schema.columns \n    WHERE table_name = \x27property_data\x27;\n  "

/-- The `pool.query` call issued by `getTableColumnsNames`. -/
def catalogCall : DbCall α := ⟨catalogColumnsText, []⟩

/-- Key-filtering loop shared by `insertProperty` and `updateProperty`: keep
exactly the entries whose key is a current table column. -/
def filterToColumns (tableColumns : List String) (row : Row α) : Row α :=
  row.filter (fun kv => tableColumns.contains kv.1)

/-- Embedding of `insertProperty(newProperty)`. -/
def insertProperty (tableColumns : List String)
    (exec : String → List α → List (Row α)) (newProperty : Row α) :
    Except String (Option (Row α)) × List (DbCall α) :=
  let propertyData := filterToColumns tableColumns newProperty
  if propertyData.length = 0 then
    (Except.error "No valid columns found to insert", [catalogCall])
  else
    let r := buildInsertQuery "property_data" propertyData
    (Except.ok (exec r.query r.values).head?, [catalogCall, ⟨r.query, r.values⟩])

/-- Embedding of `updateProperty(id, updates)`. -/
def updateProperty (tableColumns : List String)
    (exec : String → List α → List (Row α)) (id : α) (updates : Row α) :
    Except String (Option (Row α)) × List (DbCall α) :=
  let updateData := filterToColumns tableColumns updates
  if updateData.length = 0 then
    (Except.error "No valid columns found to update", [catalogCall])
  else
    let r := buildUpdateQuery "property_data" updateData [("id", id)]
    (Except.ok (exec r.query r.values).head?, [catalogCall, ⟨r.query, r.values⟩])

/-- Embedding of the model-level `addColumn(columnName, columnType)`. -/
def addColumn (existingColumns : List String) (columnName columnType : String) :
    Except String Unit × List (DbCall α) :=
  if existingColumns.contains columnName then
    (Except.error ("Column \x27" ++ columnName ++ "\x27 already exists in the property_data table."),
      [catalogCall])
  else
    match buildAddColumnQuery columnName columnType with
    | Except.error e => (Except.error e, [catalogCall])
    | Except.ok q => (Except.ok (), [catalogCall, ⟨q, []⟩])

/-! HTTP handlers (`controllers/propertyController.js`), as functions from the
outcome of the model call to the response sent. -/

/-- Body of an HTTP response; `res.json(undefined)` sends an empty body. -/
inductive RespBody (α : Type) where
  | empty
  | json (r : Row α)
  | message (m : String)
  | errorMsg (e : String)
deriving DecidableEq, Repr

/-- Status code plus body. -/
structure HttpResponse (α : Type) where
  status : Nat
  body : RespBody α
deriving DecidableEq, Repr

/-- Embedding of the `updateProperty` handler: 200 with whatever the model
returned (possibly nothing), 500 with the message on any thrown error. -/
def updatePropertyHandler (outcome : Except String (Option (Row α))) : HttpResponse α :=
  match outcome with
  | Except.error e => ⟨500, RespBody.errorMsg e⟩
  | Except.ok none => ⟨200, RespBody.empty⟩
  | Except.ok (some r) => ⟨200, RespBody.json r⟩

/-- Embedding of the `getPropertyById` handler: 404 when the model yields no
property, 200 with the row otherwise, 500 on a thrown error. -/
def getPropertyByIdHandler (outcome : Except String (Option (Row α))) : HttpResponse α :=
  match outcome with
  | Except.error e => ⟨500, RespBody.errorMsg e⟩
  | Except.ok none => ⟨404, RespBody.message "Property not found"⟩
  | Except.ok (some r) => ⟨200, RespBody.json r⟩

/-! Schema reconciler (`config/checkSchema.js`), as a transformer of an
abstract database state: whether `property_data` exists and its ordered
column-name list.  The trace is the list of SQL texts passed to `pool.query`. -/

/-- Baseline columns hardcoded in `requiredColumns`. -/
def requiredColumns : List (String × String) :=
  [("property_name", "VARCHAR"), ("address", "VARCHAR"),
   ("total_area_in_sqft", "NUMERIC"), ("price_in_cr", "NUMERIC"),
   ("listed_date", "DATE"), ("status", "VARCHAR"),
   ("total_earnings", "NUMERIC")]

/-- Text of the table-existence check. -/
def tableCheckText : String :=
  "\n      SELECT EXISTS (\n        SELECT FROM information_schema.tables \n        WHERE table_name = \x27property_data\x27\n      );\n    "

/-- Text of the CREATE TABLE statement. -/
def createTableText : String :=
  "\n        CREATE TABLE property_data (\n          id SERIAL PRIMARY KEY,\n          property_name VARCHAR,\n          address VARCHAR,\n          total_area_in_sqft NUMERIC,\n          price_in_cr NUMERIC,\n          listed_date DATE,\n          status VARCHAR,\n          total_earnings NUMERIC\n        );\n      "

/-- Text of the ADD COLUMN statement issued for a missing baseline column. -/
def addColumnText (c : String × String) : String :=
  "ALTER TABLE property_data ADD COLUMN " ++ c.1 ++ " " ++ c.2 ++ ";"

/-- DDL classification of an issued SQL text: a CREATE TABLE or ALTER TABLE
statement, ignoring the leading whitespace of the template literals. -/
def isDDLText (q : String) : Bool :=
  let t := q.data.dropWhile Char.isWhitespace
  List.isPrefixOf "CREATE TABLE".data t || List.isPrefixOf "ALTER TABLE".data t

/-- Abstract database state seen by the reconciler. -/
structure DbState where
  tableExists : Bool
  columns : List String
deriving DecidableEq, Repr

/-- Columns of the table as `createTableQuery` creates it. -/
def createdTableColumns : List String :=
  ["id", "property_name", "address", "total_area_in_sqft", "price_in_cr",
   "listed_date", "status", "total_earnings"]

/-- Loop of `ensureColumns`: for each required column absent from the
column-name list fetched before the loop, issue one ADD COLUMN statement
(which appends the column to the table). -/
def ensureColumnsLoop (existing : List String) :
    List (String × String) → DbState × List String → DbState × List String
  | [], acc => acc
  | c :: rest, acc =>
    if existing.contains c.1 then
      ensureColumnsLoop existing rest acc
    else
      ensureColumnsLoop existing rest
        (⟨acc.1.tableExists, acc.1.columns ++ [c.1]⟩, acc.2 ++ [addColumnText c])

/-- Embedding of `ensureColumns()`: fetch the current column names once, then
run the loop. -/
def ensureColumns (s : DbState) : DbState × List String :=
  let r := ensureColumnsLoop s.columns requiredColumns (s, [])
  (r.1, catalogColumnsText :: r.2)

/-- Embedding of `ensureTableSchema()`: check existence, create the table if
absent, then ensure the baseline columns. -/
def ensureTableSchema (s : DbState) : DbState × List String :=
  if s.tableExists then
    let r := ensureColumns s
    (r.1, tableCheckText :: r.2)
  else
    let r := ensureColumns ⟨true, createdTableColumns⟩
    (r.1, tableCheckText :: createTableText :: r.2)

example :
    buildUpdateQuery "t" [("a", (1 : Int)), ("b", 2)] [("id", 5)] =
      ⟨"UPDATE t SET a = $1, b = $2 WHERE id = $3 RETURNING *", [1, 2, 5]⟩ := by
  decide

example :
    (insertProperty ["id", "name"] (fun _ _ => ([] : List (Row Int))) [("bogus", 3)]).1 =
      Except.error "No valid columns found to insert" := rfl

example :
    (ensureTableSchema ⟨false, []⟩).1 = ⟨true, createdTableColumns⟩ ∧
    (ensureTableSchema ⟨false, []⟩).2 =
      [tableCheckText, createTableText, catalogColumnsText] := by
  decide

example :
    ensureTableSchema (ensureTableSchema ⟨false, []⟩).1 =
      (⟨true, createdTableColumns⟩, [tableCheckText, catalogColumnsText]) := by
  decide

example :
    (ensureTableSchema ⟨true, []⟩).1.columns =
      (requiredColumns.map Prod.fst) := by
  decide

example : isDDLText createTableText = true ∧ isDDLText tableCheckText = false ∧
    isDDLText catalogColumnsText = false ∧
    isDDLText (addColumnText ("status", "VARCHAR")) = true := by
  decide

example :
    buildSelectQuery "property_data" [("id", (7 : Int))] ["*"] =
      ⟨"SELECT * FROM property_data WHERE id = $1", [7]⟩ := by
  decide

example :
    buildInsertQuery "property_data" [("name", (3 : Int))] =
      ⟨"INSERT INTO property_data (name) VALUES ($1) RETURNING *", [3]⟩ := by
  decide

example : buildDeleteQuery "t" ([] : Row Int) = ⟨"DELETE FROM t WHERE ", []⟩ := by
  decide

example : validateColumnType "varchar" = true ∧ validateColumnType "money" = false := by
  decide

example :
    buildAddColumnQuery "foo" "varchar" =
      Except.ok "ALTER TABLE property_data ADD COLUMN foo VARCHAR;" := rfl

/-! Helper lemmas. -/

/-- A member of the joined list occurs verbatim in the joined string. -/
theorem joinSep_mem_split {sep x : String} {l : List String} (h : x ∈ l) :
    ∃ pre post, joinSep sep l = pre ++ x ++ post := by
  induction l with
  | nil => cases h
  | cons a rest ih =>
    cases rest with
    | nil =>
      have hx : x = a := by simpa using h
      subst hx
      exact ⟨"", "", by simp [joinSep, String.append_empty, String.empty_append]⟩
    | cons b bs =>
      rcases List.mem_cons.mp h with hx | hx
      · subst hx
        refine ⟨"", sep ++ joinSep sep (b :: bs), ?_⟩
        show x ++ sep ++ joinSep sep (b :: bs) = "" ++ x ++ (sep ++ joinSep sep (b :: bs))
        rw [String.empty_append, String.append_assoc]
      · obtain ⟨pre, post, hp⟩ := ih hx
        refine ⟨a ++ sep ++ pre, post, ?_⟩
        show a ++ sep ++ joinSep sep (b :: bs) = a ++ sep ++ pre ++ x ++ post
        rw [hp]
        simp [String.append_assoc]

/-- Every list member is hit by `mapWithIndex` at some index. -/
theorem mem_mapWithIndex {f : Nat → β → γ} {x : β} {l : List β} (h : x ∈ l) :
    ∀ s : Nat, ∃ n, f n x ∈ mapWithIndex f s l := by
  induction l with
  | nil => cases h
  | cons a rest ih =>
    intro s
    rcases List.mem_cons.mp h with hx | hx
    · subst hx
      exact ⟨s, by simp [mapWithIndex]⟩
    · obtain ⟨n, hn⟩ := ih hx (s + 1)
      exact ⟨n, by simp [mapWithIndex, hn]⟩

/-- A key of the data map appears, with its placeholder, inside the SET clause. -/
theorem setClauseOf_mem_split {k : String} {keys : List String} (h : k ∈ keys) :
    ∃ (n : Nat) (pre post : String),
      setClauseOf keys = pre ++ (k ++ " = $" ++ toString n) ++ post := by
  obtain ⟨n, hn⟩ :=
    @mem_mapWithIndex String String (fun i key => key ++ " = $" ++ toString (i + 1)) k keys h 0
  obtain ⟨pre, post, hp⟩ := @joinSep_mem_split ", " _ _ hn
  exact ⟨n + 1, pre, post, by
    rw [setClauseOf, hp, String.append_assoc k " = $" (toString (n + 1))]⟩

/-- The filter keeps nothing when no key is a current column. -/
theorem filterToColumns_eq_nil {cols : List String} {row : Row α}
    (h : ∀ kv ∈ row, cols.contains kv.1 = false) : filterToColumns cols row = [] := by
  rw [filterToColumns, List.filter_eq_nil_iff]
  intro kv hkv
  simpa using h kv hkv

/-- The filter keeps something as soon as one entry has a valid column key. -/
theorem filterToColumns_length_ne_zero {cols : List String} {row : Row α} {k : String} {v : α}
    (hm : (k, v) ∈ row) (hc : cols.contains k = true) :
    (filterToColumns cols row).length ≠ 0 := by
  have hmem : (k, v) ∈ filterToColumns cols row := List.mem_filter.mpr ⟨hm, hc⟩
  intro h0
  rw [List.length_eq_zero] at h0
  exact List.ne_nil_of_mem hmem h0

/-- Closed form of the reconciler loop: it appends exactly the required
columns missing from the column list fetched before the loop, in order, and
issues one ADD COLUMN statement for each. -/
theorem ensureColumnsLoop_eq (existing : List String) (req : List (String × String))
    (acc : DbState × List String) :
    ensureColumnsLoop existing req acc =
      (⟨acc.1.tableExists,
        acc.1.columns ++ (req.filter (fun c => !existing.contains c.1)).map Prod.fst⟩,
       acc.2 ++ (req.filter (fun c => !existing.contains c.1)).map addColumnText) := by
  induction req generalizing acc with
  | nil => simp [ensureColumnsLoop]
  | cons c rest ih =>
    by_cases hc : c.1 ∈ existing
    · simp [ensureColumnsLoop, hc, ih]
    · simp [ensureColumnsLoop, hc, ih]

/-- Membership transfer from `List.contains`. -/
theorem mem_of_contains {l : List String} {a : String} (h : l.contains a = true) : a ∈ l :=
  List.elem_iff.mp h

/-- Converse membership transfer to `List.contains`. -/
theorem contains_of_mem {l : List String} {a : String} (h : a ∈ l) : l.contains a = true :=
  List.elem_iff.mpr h

/-! Claim theorems. -/

/-- C1: for every table, data map and conditions map, `buildUpdateQuery`
returns the UPDATE text with one `key = $i` SET item per data key numbered
from one, condition placeholders continuing the numbering after the
`d.length` data placeholders, and the bind values are the data values
followed by the condition values in key order; in particular on table `t`
with data a/b and condition id it yields
`UPDATE t SET a = $1, b = $2 WHERE id = $3 RETURNING *` with values
`[v₁, v₂, v₃]`. -/
theorem buildUpdateQuery_spec (t : String) (d c : Row α) (v₁ v₂ v₃ : α) :
    (buildUpdateQuery t d c).values = d.map Prod.snd ++ c.map Prod.snd ∧
    (buildUpdateQuery t d c).query =
      "UPDATE " ++ t ++ " SET " ++ setClauseOf (d.map Prod.fst) ++ " WHERE " ++
        updateWhereClause d.length (c.map Prod.fst) ++ " RETURNING *" ∧
    buildUpdateQuery "t" [("a", v₁), ("b", v₂)] [("id", v₃)] =
      ⟨"UPDATE t SET a = $1, b = $2 WHERE id = $3 RETURNING *", [v₁, v₂, v₃]⟩ := by
  refine ⟨rfl, ?_, ?_⟩
  · simp [buildUpdateQuery, List.length_map]
  · have h1 : ("UPDATE " ++ "t" ++ " SET " ++ setClauseOf ["a", "b"] ++ " WHERE " ++
        updateWhereClause (List.length ["a", "b"]) ["id"] ++ " RETURNING *") =
        "UPDATE t SET a = $1, b = $2 WHERE id = $3 RETURNING *" := by decide
    exact congrArg₂ QueryResult.mk h1 rfl

/-- C2: the query text of all four builders depends only on the table name
and the keys of the maps, never on the values, which appear only in the bind
array in key order. -/
theorem query_text_value_independent (t : String) (cols : List String)
    (d d' c c' : Row α)
    (hd : d.map Prod.fst = d'.map Prod.fst)
    (hc : c.map Prod.fst = c'.map Prod.fst) :
    (buildSelectQuery t c cols).query = (buildSelectQuery t c' cols).query ∧
    (buildInsertQuery t d).query = (buildInsertQuery t d').query ∧
    (buildUpdateQuery t d c).query = (buildUpdateQuery t d' c').query ∧
    (buildDeleteQuery t c).query = (buildDeleteQuery t c').query ∧
    (buildSelectQuery t c cols).values = c.map Prod.snd ∧
    (buildInsertQuery t d).values = d.map Prod.snd ∧
    (buildUpdateQuery t d c).values = d.map Prod.snd ++ c.map Prod.snd ∧
    (buildDeleteQuery t c).values = c.map Prod.snd := by
  refine ⟨?_, ?_, ?_, ?_, rfl, rfl, rfl, rfl⟩
  · exact congrArg
      (fun ks => "SELECT " ++ joinSep ", " cols ++ " FROM " ++ t ++
        if ks.length = 0 then "" else " WHERE " ++ condClause ks) hc
  · exact congrArg
      (fun ks => "INSERT INTO " ++ t ++ " (" ++ joinSep ", " ks ++ ") VALUES (" ++
        joinSep ", " (mapWithIndex (fun i _ => "$" ++ toString (i + 1)) 0 ks) ++
        ") RETURNING *") hd
  · exact congrArg₂
      (fun dk ck => "UPDATE " ++ t ++ " SET " ++ setClauseOf dk ++ " WHERE " ++
        updateWhereClause (List.length dk) ck ++ " RETURNING *") hd hc
  · exact congrArg (fun ks => "DELETE FROM " ++ t ++ " WHERE " ++ condClause ks) hc

/-- C2 witness: two update calls differing only in values produce the same
query text. -/
theorem query_text_value_independent_witness :
    (buildUpdateQuery "t" [("a", (1 : Int))] [("id", 5)]).query =
      (buildUpdateQuery "t" [("a", (2 : Int))] [("id", 6)]).query :=
  (query_text_value_independent "t" ["*"] [("a", 1)] [("a", 2)] [("id", 5)] [("id", 6)]
    rfl rfl).2.2.1

/-- C9: neither `buildUpdateQuery` nor `buildDeleteQuery` guards against an
empty conditions map: the WHERE keyword is always emitted, giving
`... WHERE  RETURNING *` with an empty predicate for updates and exactly
`DELETE FROM t WHERE ` with an empty values array for deletes. -/
theorem empty_conditions_where_emitted (t : String) (d : Row α) :
    (buildUpdateQuery t d []).query =
      "UPDATE " ++ t ++ " SET " ++ setClauseOf (d.map Prod.fst) ++ " WHERE  RETURNING *" ∧
    (buildDeleteQuery t ([] : Row α)).query = "DELETE FROM " ++ t ++ " WHERE " ∧
    (buildDeleteQuery t ([] : Row α)).values = [] := by
  refine ⟨?_, ?_, rfl⟩
  · rw [show (" WHERE  RETURNING *" : String) = " WHERE " ++ "" ++ " RETURNING *" from rfl]
    simp [buildUpdateQuery, updateWhereClause, mapWithIndex, joinSep,
      String.append_assoc, String.append_empty]
  · simp [buildDeleteQuery, condClause, mapWithIndex, joinSep, String.append_empty]

/-- C6: `validateColumnType` accepts exactly the case-insensitive members of
the fixed allowed-type set (`varchar` accepted, `money` rejected), and
`buildAddColumnQuery` fails with the invalid-type error exactly when
validation fails, otherwise producing the ADD COLUMN DDL with the type
upper-cased. -/
theorem validateColumnType_spec (t n : String) :
    (validateColumnType t = true ↔ jsToUpperCase t ∈ validTypes) ∧
    validateColumnType "varchar" = true ∧
    validateColumnType "money" = false ∧
    (buildAddColumnQuery n t = Except.error "Invalid column type" ↔
      validateColumnType t = false) ∧
    (validateColumnType t = true →
      buildAddColumnQuery n t =
        Except.ok ("ALTER TABLE property_data ADD COLUMN " ++ n ++ " " ++
          jsToUpperCase t ++ ";")) := by
  refine ⟨List.elem_iff, by decide, by decide, ?_, ?_⟩
  · cases h : validateColumnType t
    · simp [buildAddColumnQuery, h]
    · simp [buildAddColumnQuery, h]
  · intro h
    simp [buildAddColumnQuery, h]

/-- C6 witness: a lower-case valid type is accepted and upper-cased in the
produced DDL. -/
theorem validateColumnType_spec_witness :
    buildAddColumnQuery "extra_info" "varchar" =
      Except.ok "ALTER TABLE property_data ADD COLUMN extra_info VARCHAR;" :=
  (validateColumnType_spec "varchar" "extra_info").2.2.2.2 (by decide)

/-- C3: `insertProperty` filters the incoming row to the current table
columns and builds the INSERT from the filtered map only: with `name` a valid
column and `bogus` not, the issued INSERT mentions only `name` and binds only
its value, and the returned row is the single row the database returns. -/
theorem insertProperty_filters_to_valid_columns (tableColumns : List String)
    (exec : String → List α → List (Row α)) (x y : α) (r : Row α)
    (hname : tableColumns.contains "name" = true)
    (hbogus : tableColumns.contains "bogus" = false)
    (hexec : exec "INSERT INTO property_data (name) VALUES ($1) RETURNING *" [x] = [r]) :
    insertProperty tableColumns exec [("name", x), ("bogus", y)] =
      (Except.ok (some r),
       [catalogCall,
        ⟨"INSERT INTO property_data (name) VALUES ($1) RETURNING *", [x]⟩]) := by
  have hname' : "name" ∈ tableColumns := mem_of_contains hname
  have hbogus' : "bogus" ∉ tableColumns := by simpa using hbogus
  have hfilter : filterToColumns tableColumns [("name", x), ("bogus", y)] = [("name", x)] := by
    simp [filterToColumns, List.filter, hname', hbogus']
  have hq1 : ("INSERT INTO " ++ "property_data" ++ " (" ++ joinSep ", " ["name"] ++
      ") VALUES (" ++
      joinSep ", " (mapWithIndex (fun i _ => "$" ++ toString (i + 1)) 0 ["name"]) ++
      ") RETURNING *") = "INSERT INTO property_data (name) VALUES ($1) RETURNING *" := by
    decide
  have hq : buildInsertQuery "property_data" [("name", x)] =
      ⟨"INSERT INTO property_data (name) VALUES ($1) RETURNING *", [x]⟩ :=
    congrArg₂ QueryResult.mk hq1 rfl
  simp [insertProperty, hfilter, hq, hexec]

/-- C3 witness: a concrete insert with one valid and one unknown column. -/
theorem insertProperty_filters_to_valid_columns_witness :
    insertProperty ["id", "name"] (fun _ _ => [[("name", (1 : Int))]]) [("name", 1), ("bogus", 2)] =
      (Except.ok (some [("name", 1)]),
       [catalogCall,
        ⟨"INSERT INTO property_data (name) VALUES ($1) RETURNING *", [1]⟩]) :=
  insertProperty_filters_to_valid_columns ["id", "name"] (fun _ _ => [[("name", 1)]])
    1 2 [("name", 1)] (by decide) (by decide) rfl

/-- C4 counterexample: rejecting an insert whose keys are all invalid still
issues one database call, the catalog column-name query, so the trace is not
empty as the claim states. -/
theorem insert_rejection_issues_catalog_query :
    (insertProperty ["name"] (fun _ _ => ([] : List (Row Int))) [("bogus", 0)]).1 =
      Except.error "No valid columns found to insert" ∧
    (insertProperty ["name"] (fun _ _ => ([] : List (Row Int))) [("bogus", 0)]).2 ≠ [] := by
  exact ⟨rfl, by decide⟩

/-- C4 (amended): when no key of the input is a current column (including the
empty input), `insertProperty` fails with the no-valid-columns-to-insert
error and `updateProperty` with the no-valid-columns-to-update error, and
each issues no database call beyond the single catalog column-name query (in
particular, no INSERT and no UPDATE is executed). -/
theorem no_valid_columns_rejected (cols : List String)
    (exec : String → List α → List (Row α)) (inputI inputU : Row α) (id : α)
    (hI : ∀ kv ∈ inputI, cols.contains kv.1 = false)
    (hU : ∀ kv ∈ inputU, cols.contains kv.1 = false) :
    insertProperty cols exec inputI =
      (Except.error "No valid columns found to insert", [catalogCall]) ∧
    updateProperty cols exec id inputU =
      (Except.error "No valid columns found to update", [catalogCall]) := by
  constructor
  · simp [insertProperty, filterToColumns_eq_nil hI]
  · simp [updateProperty, filterToColumns_eq_nil hU]

/-- C4 witness: concrete rejected insert and update. -/
theorem no_valid_columns_rejected_witness :
    insertProperty ["name"] (fun _ _ => ([] : List (Row Int))) [("bogus", 1)] =
      (Except.error "No valid columns found to insert", [catalogCall]) ∧
    updateProperty ["name"] (fun _ _ => ([] : List (Row Int))) 7 [("bogus", 1)] =
      (Except.error "No valid columns found to update", [catalogCall]) :=
  no_valid_columns_rejected ["name"] (fun _ _ => []) [("bogus", 1)] [("bogus", 1)] 7
    (by decide) (by decide)

/-- C5: for a column name already present, `addColumn` fails with the
already-exists error and its trace contains no DDL statement; conversely any
DDL it issues implies the name was absent. -/
theorem addColumn_existing_column_rejected (cols : List String) (cn ct : String) :
    (cols.contains cn = true →
      (@addColumn Int cols cn ct).1 =
        Except.error ("Column \x27" ++ cn ++ "\x27 already exists in the property_data table.") ∧
      ∀ c ∈ (@addColumn Int cols cn ct).2, isDDLText c.text = false) ∧
    (∀ c ∈ (@addColumn Int cols cn ct).2, isDDLText c.text = true →
      cols.contains cn = false) := by
  constructor
  · intro h
    constructor
    · simp [addColumn, mem_of_contains h]
    · intro c hc
      have hcat : c = catalogCall := by
        simpa [addColumn, mem_of_contains h] using hc
      subst hcat
      decide
  · intro c hc hddl
    cases h : cols.contains cn with
    | false => rfl
    | true =>
      have hcat : c = catalogCall := by
        simpa [addColumn, mem_of_contains h] using hc
      subst hcat
      exact absurd hddl (by decide)

/-- C5 witness: adding an already-present column is rejected and its trace
holds no DDL. -/
theorem addColumn_existing_column_rejected_witness :
    (@addColumn Int ["status"] "status" "VARCHAR").1 =
      Except.error "Column \x27status\x27 already exists in the property_data table." ∧
    ∀ c ∈ (@addColumn Int ["status"] "status" "VARCHAR").2,
      isDDLText c.text = false :=
  (addColumn_existing_column_rejected ["status"] "status" "VARCHAR").1 (by decide)

/-- Closed form of `ensureColumns`: it appends the missing baseline column
names and issues the catalog query followed by one ADD COLUMN per missing
baseline column. -/
theorem ensureColumns_char (s : DbState) :
    ensureColumns s =
      (⟨s.tableExists,
        s.columns ++
          (requiredColumns.filter (fun c => !s.columns.contains c.1)).map Prod.fst⟩,
       catalogColumnsText ::
         (requiredColumns.filter (fun c => !s.columns.contains c.1)).map addColumnText) := by
  simp [ensureColumns, ensureColumnsLoop_eq]

/-- After `ensureColumns`, every baseline column is present. -/
theorem ensureColumns_required (s : DbState) :
    ∀ c ∈ requiredColumns, c.1 ∈ (ensureColumns s).1.columns := by
  intro c hc
  rw [ensureColumns_char]
  by_cases h : c.1 ∈ s.columns
  · simp [h]
  · simp only [List.mem_append]
    right
    exact List.mem_map.mpr ⟨c, List.mem_filter.mpr ⟨hc, by simp [h]⟩, rfl⟩

/-- When every baseline column is already present, `ensureColumns` leaves the
state unchanged and issues only the catalog query. -/
theorem ensureColumns_complete (s : DbState)
    (h : ∀ c ∈ requiredColumns, c.1 ∈ s.columns) :
    ensureColumns s = (s, [catalogColumnsText]) := by
  have hfil : requiredColumns.filter (fun c => !s.columns.contains c.1) = [] :=
    List.filter_eq_nil_iff.mpr (fun c hc => by simp [h c hc])
  rw [ensureColumns_char, hfil]
  simp

/-- C7 (amended): one run of `ensureTableSchema` brings the table to contain
every baseline column — and the identifier column too whenever the run had to
create the table — an immediately repeated run changes nothing and issues no
CREATE TABLE and no ADD COLUMN DDL, and reconciliation never drops or renames
a column of a pre-existing table.  The identifier column is not guaranteed
when the table already existed without it. -/
theorem ensureTableSchema_reconciles_and_idempotent (s : DbState) :
    (∀ c ∈ requiredColumns, c.1 ∈ (ensureTableSchema s).1.columns) ∧
    (s.tableExists = false → "id" ∈ (ensureTableSchema s).1.columns) ∧
    ensureTableSchema (ensureTableSchema s).1 =
      ((ensureTableSchema s).1, [tableCheckText, catalogColumnsText]) ∧
    (∀ q ∈ (ensureTableSchema (ensureTableSchema s).1).2, isDDLText q = false) ∧
    (s.tableExists = true → ∀ c ∈ s.columns, c ∈ (ensureTableSchema s).1.columns) := by
  have hcols1 : ∀ c ∈ requiredColumns, c.1 ∈ (ensureTableSchema s).1.columns := by
    intro c hc
    cases hs : s.tableExists
    · simpa [ensureTableSchema, hs] using
        ensureColumns_required ⟨true, createdTableColumns⟩ c hc
    · simpa [ensureTableSchema, hs] using ensureColumns_required s c hc
  have hexists1 : (ensureTableSchema s).1.tableExists = true := by
    cases hs : s.tableExists <;> simp [ensureTableSchema, hs, ensureColumns_char]
  have hstep : ∀ s₁ : DbState, s₁.tableExists = true →
      ensureColumns s₁ = (s₁, [catalogColumnsText]) →
      ensureTableSchema s₁ = (s₁, [tableCheckText, catalogColumnsText]) := by
    intro s₁ hex hnm
    simp [ensureTableSchema, hex, hnm]
  have hsec : ensureTableSchema (ensureTableSchema s).1 =
      ((ensureTableSchema s).1, [tableCheckText, catalogColumnsText]) :=
    hstep (ensureTableSchema s).1 hexists1 (ensureColumns_complete _ hcols1)
  refine ⟨hcols1, ?_, hsec, ?_, ?_⟩
  · intro hs
    have hid : "id" ∈ createdTableColumns := by decide
    simp only [ensureTableSchema, hs, Bool.false_eq_true, if_false, ensureColumns_char]
    exact List.mem_append.mpr (Or.inl hid)
  · intro q hq
    rw [hsec] at hq
    have : q = tableCheckText ∨ q = catalogColumnsText := by simpa using hq
    rcases this with h | h <;> subst h <;> decide
  · intro hs c hc
    simp only [ensureTableSchema, hs, if_true, ensureColumns_char]
    exact List.mem_append.mpr (Or.inl hc)

/-- C7 counterexample: for the database state in which the table exists with
no columns at all, one run adds only the baseline columns, so the identifier
column is not present afterwards, contradicting the claim that a single run
always yields the identifier plus the baseline. -/
theorem ensureTableSchema_existing_table_id_not_ensured :
    ¬ ("id" ∈ (ensureTableSchema ⟨true, []⟩).1.columns) := by
  decide

/-- C7 witness: concrete runs from the empty database. -/
theorem ensureTableSchema_reconciles_witness :
    ("id" ∈ (ensureTableSchema ⟨false, []⟩).1.columns) ∧
    ensureTableSchema (ensureTableSchema ⟨false, []⟩).1 =
      ((ensureTableSchema ⟨false, []⟩).1, [tableCheckText, catalogColumnsText]) :=
  ⟨(ensureTableSchema_reconciles_and_idempotent ⟨false, []⟩).2.1 rfl,
   (ensureTableSchema_reconciles_and_idempotent ⟨false, []⟩).2.2.1⟩

/-- C8: an `updates` object containing the key `id` is not filtered (the
whitelist is the full current column set, which contains `id`), so the UPDATE
issued by `updateProperty` carries `id = $n` inside its SET clause: the row
identifier can be overwritten through the update path. -/
theorem updateProperty_set_clause_includes_id (cols : List String)
    (exec : String → List α → List (Row α)) (updates : Row α) (v id : α)
    (hid : cols.contains "id" = true) (hmem : ("id", v) ∈ updates) :
    "id" ∈ (filterToColumns cols updates).map Prod.fst ∧
    (∃ (n : Nat) (pre post : String),
      setClauseOf ((filterToColumns cols updates).map Prod.fst) =
        pre ++ ("id = $" ++ toString n) ++ post) ∧
    (updateProperty cols exec id updates).2 =
      [catalogCall,
       ⟨(buildUpdateQuery "property_data" (filterToColumns cols updates) [("id", id)]).query,
        (buildUpdateQuery "property_data" (filterToColumns cols updates) [("id", id)]).values⟩] ∧
    (buildUpdateQuery "property_data" (filterToColumns cols updates) [("id", id)]).query =
      "UPDATE property_data SET " ++
        setClauseOf ((filterToColumns cols updates).map Prod.fst) ++ " WHERE " ++
        updateWhereClause ((filterToColumns cols updates).map Prod.fst).length ["id"] ++
        " RETURNING *" := by
  have hmem' : ("id", v) ∈ filterToColumns cols updates := List.mem_filter.mpr ⟨hmem, hid⟩
  have hkey : "id" ∈ (filterToColumns cols updates).map Prod.fst :=
    List.mem_map.mpr ⟨("id", v), hmem', rfl⟩
  have hne := filterToColumns_length_ne_zero hmem hid
  refine ⟨hkey, setClauseOf_mem_split hkey, ?_, ?_⟩
  · simp [updateProperty, hne]
  · simp only [buildUpdateQuery]
    rw [show ("UPDATE " ++ "property_data" ++ " SET " : String) = "UPDATE property_data SET "
      from by decide]
    rfl

/-- C8 witness: a concrete update whose SET clause names the identifier. -/
theorem updateProperty_set_clause_includes_id_witness :
    "id" ∈ (filterToColumns ["id"] [("id", (7 : Int))]).map Prod.fst ∧
    (∃ (n : Nat) (pre post : String),
      setClauseOf ((filterToColumns ["id"] [("id", (7 : Int))]).map Prod.fst) =
        pre ++ ("id = $" ++ toString n) ++ post) :=
  ⟨(updateProperty_set_clause_includes_id ["id"] (fun _ _ => []) [("id", 7)] 7 3
      (by decide) (by decide)).1,
   (updateProperty_set_clause_includes_id ["id"] (fun _ _ => []) [("id", 7)] 7 3
      (by decide) (by decide)).2.1⟩

/-- C10: an update with at least one valid field whose identifier matches no
row makes the model return no value, which the update handler maps to status
200 with an empty body; the update handler never answers 404 on any outcome,
while the single-row fetch handler answers 404 exactly when the model yields
no property. -/
theorem update_missing_row_yields_200 (cols : List String)
    (exec : String → List α → List (Row α)) (updates : Row α) (id : α) (k : String) (v : α)
    (hmem : (k, v) ∈ updates) (hcol : cols.contains k = true)
    (hexec : ∀ q vs, exec q vs = []) :
    (updateProperty cols exec id updates).1 = Except.ok none ∧
    updatePropertyHandler (updateProperty cols exec id updates).1 = ⟨200, RespBody.empty⟩ ∧
    (∀ outcome : Except String (Option (Row α)),
      (updatePropertyHandler outcome).status ≠ 404) ∧
    (∀ outcome : Except String (Option (Row α)),
      (getPropertyByIdHandler outcome).status = 404 ↔ outcome = Except.ok none) := by
  have hne := filterToColumns_length_ne_zero hmem hcol
  have h1 : (updateProperty cols exec id updates).1 = Except.ok none := by
    simp [updateProperty, hne, hexec]
  refine ⟨h1, by rw [h1]; rfl, ?_, ?_⟩
  · intro o
    cases o with
    | error e => simp [updatePropertyHandler]
    | ok r => cases r <;> simp [updatePropertyHandler]
  · intro o
    cases o with
    | error e => simp [getPropertyByIdHandler]
    | ok r => cases r <;> simp [getPropertyByIdHandler]

/-- C10 witness: a concrete update against a database that returns no rows. -/
theorem update_missing_row_yields_200_witness :
    updatePropertyHandler
        (updateProperty ["id"] (fun _ _ => ([] : List (Row Int))) 3 [("id", 7)]).1 =
      ⟨200, RespBody.empty⟩ :=
  (update_missing_row_yields_200 ["id"] (fun _ _ => []) [("id", 7)] 3 "id" 7
    (by decide) (by decide) (fun _ _ => rfl)).2.1

end PropertyApi
